import Mathlib

/-!
Verification of the appointment-slot availability subsystem of a hospital
administration application (source: app.py).

Wall-clock times, which the source holds as HH:MM strings and converts with
strptime, are modelled as minutes since midnight (Nat); the functions
fmt24 and fmt12 reproduce the strftime output used to build slot records.
Database tables are modelled as lists of records; each SQL statement of the
relevant request handlers becomes the corresponding filter / map / append
on those lists, always carrying the tenant (hospital_id) condition of the
original query.
-/

/-- Zero-padded two-digit rendering, as produced by strftime for field
values below 100. -/
def two_digit (n : Nat) : String :=
  (if n < 10 then "0" else "") ++ toString n

/-- strftime with format %H:%M applied to a time of m minutes. -/
def fmt24 (m : Nat) : String :=
  two_digit (m / 60 % 24) ++ ":" ++ two_digit (m % 60)

/-- strftime with format %I:%M %p, lower-cased, applied to m minutes. -/
def fmt12 (m : Nat) : String :=
  two_digit (if m / 60 % 24 % 12 = 0 then 12 else m / 60 % 24 % 12) ++ ":" ++
    two_digit (m % 60) ++ " " ++ (if m / 60 % 24 < 12 then "am" else "pm")

/-- The slot dictionary built by generate_time_slots; the source key named
end is called stop here because end is a Lean keyword. -/
structure Slot where
  start : String
  stop : String
  display_start : String
  display_end : String
  deriving DecidableEq

/-- The record appended to the slots list for cursor position current and
slot end current + interval. -/
def mkSlot (current slot_end : Nat) : Slot :=
  { start := fmt24 current
    stop := fmt24 slot_end
    display_start := fmt12 current
    display_end := fmt12 slot_end }

/-- The while loop of generate_time_slots.  The loop is driven by a fuel
argument (structural recursion); genLoop_fuel_congr below shows that any
fuel of at least end_time - current gives the same result, i.e. the source
loop terminates.  The branches mirror the source: when both break bounds
are set and the candidate slot lies inside the break window the cursor
jumps to break_end without emitting; otherwise a slot is emitted exactly
when its end does not pass end_time, and the cursor advances by one
interval. -/
def genLoop (end_time : Nat) (break_start break_end : Option Nat)
    (interval : Nat) : Nat → Nat → List Slot
  | 0, _ => []
  | fuel + 1, current =>
    if current < end_time then
      if break_start.isSome ∧ break_end.isSome ∧
          break_start.getD 0 ≤ current ∧
          current + interval ≤ break_end.getD 0 then
        genLoop end_time break_start break_end interval fuel (break_end.getD 0)
      else if current + interval ≤ end_time then
        mkSlot current (current + interval) ::
          genLoop end_time break_start break_end interval fuel (current + interval)
      else
        genLoop end_time break_start break_end interval fuel (current + interval)
    else []

/-- generate_time_slots from app.py.  A missing (Python None) break bound is
an Option none; the source guard break_start and break_end is the isSome
test on both options.  The fuel end_time is sufficient for every
positive interval (see genLoop_fuel_congr). -/
def generate_time_slots (start_time end_time : Nat)
    (break_start break_end : Option Nat) (interval : Nat) : List Slot :=
  genLoop end_time break_start break_end interval end_time start_time

/-- A row of the appointments table (CREATE TABLE appointments).  The
created_at column is omitted; status defaults to Scheduled on insert. -/
structure Appointment where
  id : Nat
  patient_id : Nat
  doctor_id : Nat
  date : String
  time_slot : String
  status : String
  notes : String
  hospital_id : Nat
  deriving DecidableEq

/-- The INSERT performed by the schedule_appointment handler: a plain append
of a fresh row (id modelling AUTOINCREMENT) with the session tenant and the
default status Scheduled; the source performs no conflict check. -/
def schedule_appointment (db : List Appointment) (patient_id doctor_id : Nat)
    (date time_slot notes : String) (hospital_id new_id : Nat) : List Appointment :=
  db ++ [{ id := new_id
           patient_id := patient_id
           doctor_id := doctor_id
           date := date
           time_slot := time_slot
           status := "Scheduled"
           notes := notes
           hospital_id := hospital_id }]

/-- The booked-slot query of the get_doctor_slots handler: SELECT time_slot
FROM appointments WHERE doctor_id = ? AND date = ? AND status != Cancelled
AND hospital_id = ?. -/
def booked_slots (db : List Appointment) (doctor_id : Nat) (date : String)
    (hospital_id : Nat) : List String :=
  (db.filter (fun a => a.doctor_id == doctor_id && a.date == date &&
    a.status != "Cancelled" && a.hospital_id == hospital_id)).map
    (fun a => a.time_slot)

/-- The UPDATE of the update_appointment_status handler: SET status WHERE
id = ? AND doctor_id = ? AND hospital_id = ?. -/
def update_appointment_status (db : List Appointment) (appointment_id : Nat)
    (status : String) (doctor_id hospital_id : Nat) : List Appointment :=
  db.map (fun a =>
    if a.id == appointment_id && a.doctor_id == doctor_id &&
        a.hospital_id == hospital_id then
      { a with status := status }
    else a)

/-- The DELETE of the delete_appointment handler: WHERE id = ? AND
hospital_id = ?. -/
def delete_appointment (db : List Appointment) (appointment_id hospital_id : Nat) :
    List Appointment :=
  db.filter (fun a => !(a.id == appointment_id && a.hospital_id == hospital_id))

/-- A row of the doctor_slots table: the schedule template of one doctor for
one weekday.  Stored times are modelled as minutes since midnight. -/
structure DoctorSlot where
  id : Nat
  doctor_id : Nat
  day : String
  start_time : Nat
  end_time : Nat
  break_start : Option Nat
  break_end : Option Nat
  hospital_id : Nat
  deriving DecidableEq

/-- The write path of the set_doctor_slots handler: DELETE FROM doctor_slots
WHERE doctor_id = ? AND day = ? AND hospital_id = ?, then INSERT the newly
submitted row. -/
def set_doctor_slots (templates : List DoctorSlot) (doctor_id : Nat) (day : String)
    (start_time end_time : Nat) (break_start break_end : Option Nat)
    (hospital_id new_id : Nat) : List DoctorSlot :=
  (templates.filter (fun t => !(t.doctor_id == doctor_id && t.day == day &&
      t.hospital_id == hospital_id))) ++
    [{ id := new_id
       doctor_id := doctor_id
       day := day
       start_time := start_time
       end_time := end_time
       break_start := break_start
       break_end := break_end
       hospital_id := hospital_id }]

/-- Leap-year rule of the proleptic Gregorian calendar, as used by the
Python datetime module. -/
def isLeapYear (y : Nat) : Bool :=
  (y % 4 == 0 && y % 100 != 0) || y % 400 == 0

/-- Length of month m of year y. -/
def daysInMonth (y m : Nat) : Nat :=
  if m == 2 then (if isLeapYear y then 29 else 28)
  else if m == 4 || m == 6 || m == 9 || m == 11 then 30
  else 31

/-- Days in year y that precede the first day of month m. -/
def daysBeforeMonth (y m : Nat) : Nat :=
  ((List.range (m - 1)).map (fun k => daysInMonth y (k + 1))).sum

/-- Proleptic Gregorian day number of y-m-d; day number 1 is 0001-01-01,
matching date.toordinal. -/
def rataDie (y m d : Nat) : Nat :=
  365 * (y - 1) + (y - 1) / 4 + (y - 1) / 400 + daysBeforeMonth y m + d - (y - 1) / 100

/-- strftime %A: the canonical English weekday name of a date.  Day number 1
(0001-01-01) is a Monday. -/
def dayOfWeekName (y m d : Nat) : String :=
  (["Sunday", "Monday", "Tuesday", "Wednesday", "Thursday", "Friday",
    "Saturday"]).getD (rataDie y m d % 7) ""

/-- Digit-string to number, most significant digit first. -/
def digitsToNat (cs : List Char) : Nat :=
  cs.foldl (fun n c => 10 * n + (c.toNat - 48)) 0

/-- Split a character list at dash characters. -/
def splitDashAux : List Char → List Char → List (List Char)
  | [], acc => [acc.reverse]
  | c :: rest, acc =>
    if c = '-' then acc.reverse :: splitDashAux rest []
    else splitDashAux rest (c :: acc)

/-- datetime.strptime with format %Y-%m-%d: exactly four digits of year,
one or two digits each of month and day, dash separated, nothing else; the
resulting components must form a real calendar date with year at least 1.
Returns none where the source raises ValueError. -/
def parseDate (s : String) : Option (Nat × Nat × Nat) :=
  match splitDashAux s.toList [] with
  | [ys, ms, ds] =>
    if ys.length == 4 && ys.all Char.isDigit &&
        decide (1 ≤ ms.length) && ms.length ≤ 2 && ms.all Char.isDigit &&
        decide (1 ≤ ds.length) && ds.length ≤ 2 && ds.all Char.isDigit then
      if decide (1 ≤ digitsToNat ys) && decide (1 ≤ digitsToNat ms) &&
          digitsToNat ms ≤ 12 && decide (1 ≤ digitsToNat ds) &&
          digitsToNat ds ≤ daysInMonth (digitsToNat ys) (digitsToNat ms) then
        some (digitsToNat ys, digitsToNat ms, digitsToNat ds)
      else none
    else none
  | _ => none

/-- Outcome of the get_doctor_slots route: HTTP 400 for an unparseable date,
the soft not-available answer when no template row exists for the weekday,
or the slot list paired with the booked time_slot strings. -/
inductive SlotsResponse where
  | invalidDate : SlotsResponse
  | notAvailable : SlotsResponse
  | available : List Slot → List String → SlotsResponse
  deriving DecidableEq

/-- The get_doctor_slots handler: parse the date (ValueError gives the 400
answer), map it to a weekday name, fetch the template row for (doctor,
weekday, tenant), and on success pair the generated slots (interval 15)
with the booked slots of (doctor, date, tenant). -/
def get_doctor_slots (templates : List DoctorSlot) (db : List Appointment)
    (doctor_id : Nat) (date : String) (hospital_id : Nat) : SlotsResponse :=
  match parseDate date with
  | none => SlotsResponse.invalidDate
  | some (y, m, d) =>
    match templates.find? (fun t => t.doctor_id == doctor_id &&
        t.day == dayOfWeekName y m d && t.hospital_id == hospital_id) with
    | none => SlotsResponse.notAvailable
    | some t =>
      SlotsResponse.available
        (generate_time_slots t.start_time t.end_time t.break_start t.break_end 15)
        (booked_slots db doctor_id date hospital_id)

/-- Once the cursor has reached or passed end_time the loop yields nothing,
whatever fuel remains. -/
lemma genLoop_stop (end_time : Nat) (break_start break_end : Option Nat)
    (interval fuel current : Nat) (h : end_time ≤ current) :
    genLoop end_time break_start break_end interval fuel current = [] := by
  cases fuel with
  | zero => rfl
  | succ f => simp [genLoop, Nat.not_lt.mpr h]

/-- With a positive interval the cursor strictly increases every iteration,
so any fuel of at least end_time - current yields the same list: the source
while loop terminates with that common value. -/
lemma genLoop_fuel_congr (end_time : Nat) (break_start break_end : Option Nat)
    (interval : Nat) (hi : 1 ≤ interval) :
    ∀ fuel₁ current fuel₂, end_time - current ≤ fuel₁ →
      end_time - current ≤ fuel₂ →
      genLoop end_time break_start break_end interval fuel₁ current =
        genLoop end_time break_start break_end interval fuel₂ current := by
  intro fuel₁
  induction fuel₁ with
  | zero =>
    intro current fuel₂ h1 h2
    have hc : end_time ≤ current := by omega
    rw [genLoop_stop _ _ _ _ _ _ hc, genLoop_stop _ _ _ _ _ _ hc]
  | succ f ih =>
    intro current fuel₂ h1 h2
    by_cases hc : current < end_time
    · match fuel₂ with
      | 0 => omega
      | g + 1 =>
        by_cases hs : break_start.isSome ∧ break_end.isSome ∧
            break_start.getD 0 ≤ current ∧
            current + interval ≤ break_end.getD 0
        · have hb : current + interval ≤ break_end.getD 0 := hs.2.2.2
          simp only [genLoop, if_pos hc, if_pos hs]
          exact ih (break_end.getD 0) g (by omega) (by omega)
        · by_cases he : current + interval ≤ end_time
          · simp only [genLoop, if_pos hc, if_neg hs, if_pos he]
            rw [ih (current + interval) g (by omega) (by omega)]
          · simp only [genLoop, if_pos hc, if_neg hs, if_neg he]
            rw [ih (current + interval) g (by omega) (by omega)]
    · rw [genLoop_stop _ _ _ _ _ _ (by omega), genLoop_stop _ _ _ _ _ _ (by omega)]

/-- Closed form of the loop when no break is configured: starting at cursor
c with sufficient fuel, the output is one slot of exact length interval for
every full interval fitting in [c, end_time). -/
lemma genLoop_none (end_time interval : Nat) (hi : 1 ≤ interval) :
    ∀ fuel current, end_time - current ≤ fuel →
      genLoop end_time none none interval fuel current =
        (List.range ((end_time - current) / interval)).map
          (fun k => mkSlot (current + k * interval) (current + k * interval + interval)) := by
  intro fuel
  induction fuel with
  | zero =>
    intro current h
    have h0 : end_time - current = 0 := by omega
    simp [genLoop_stop _ _ _ _ _ _ (by omega : end_time ≤ current), h0]
  | succ f ih =>
    intro current h
    have hnb : ¬((none : Option Nat).isSome ∧ (none : Option Nat).isSome ∧
        (none : Option Nat).getD 0 ≤ current ∧
        current + interval ≤ (none : Option Nat).getD 0) := by
      simp
    by_cases hc : current < end_time
    · by_cases he : current + interval ≤ end_time
      · have hdiv : (end_time - current) / interval =
            (end_time - current - interval) / interval + 1 :=
          Nat.div_eq_sub_div (by omega) (by omega)
        have hsub : end_time - (current + interval) = end_time - current - interval := by
          omega
        simp only [genLoop, if_pos hc, if_neg hnb, if_pos he]
        rw [ih (current + interval) (by omega), hdiv, hsub,
          List.range_succ_eq_map, List.map_cons, List.map_map]
        refine congrArg₂ List.cons ?_ ?_
        · show mkSlot current (current + interval) =
            mkSlot (current + 0 * interval) (current + 0 * interval + interval)
          norm_num
        · refine List.map_congr_left ?_
          intro k _
          show mkSlot (current + interval + k * interval)
              (current + interval + k * interval + interval) =
            mkSlot (current + Nat.succ k * interval)
              (current + Nat.succ k * interval + interval)
          have harg : current + interval + k * interval =
              current + Nat.succ k * interval := by
            simp [Nat.succ_mul]
            omega
          rw [harg]
      · have h0 : (end_time - current) / interval = 0 :=
          Nat.div_eq_of_lt (by omega)
        simp only [genLoop, if_pos hc, if_neg hnb, if_neg he]
        rw [ih (current + interval) (by omega),
          (by omega : end_time - (current + interval) = 0), h0]
        simp
    · have h0 : end_time - current = 0 := by omega
      simp [genLoop_stop _ _ _ _ _ _ (by omega : end_time ≤ current), h0]

/-- Every slot the loop emits under a configured break window comes from some
cursor value x whose candidate slot [x, x + interval) is not contained in
the break window: the skip branch fires on exactly the contained ones. -/
lemma genLoop_break_not_contained (end_time b1 b2 interval : Nat) :
    ∀ fuel current slot,
      slot ∈ genLoop end_time (some b1) (some b2) interval fuel current →
      ∃ x, slot = mkSlot x (x + interval) ∧ ¬(b1 ≤ x ∧ x + interval ≤ b2) := by
  intro fuel
  induction fuel with
  | zero =>
    intro current slot hmem
    simp [genLoop] at hmem
  | succ f ih =>
    intro current slot hmem
    by_cases hc : current < end_time
    · simp only [genLoop, if_pos hc, Option.getD_some] at hmem
      by_cases hs : b1 ≤ current ∧ current + interval ≤ b2
      · have hs₂ : (some b1 : Option Nat).isSome = true ∧
            (some b2 : Option Nat).isSome = true ∧
            b1 ≤ current ∧ current + interval ≤ b2 := ⟨rfl, rfl, hs.1, hs.2⟩
        rw [if_pos hs₂] at hmem
        exact ih b2 slot hmem
      · have hs₂ : ¬((some b1 : Option Nat).isSome = true ∧
            (some b2 : Option Nat).isSome = true ∧
            b1 ≤ current ∧ current + interval ≤ b2) := by
          simpa using hs
        rw [if_neg hs₂] at hmem
        by_cases he : current + interval ≤ end_time
        · rw [if_pos he] at hmem
          cases List.mem_cons.mp hmem with
          | inl hhead => exact ⟨current, hhead, hs⟩
          | inr htail => exact ih (current + interval) slot htail
        · rw [if_neg he] at hmem
          exact ih (current + interval) slot hmem
    · rw [genLoop_stop _ _ _ _ _ _ (by omega)] at hmem
      simp at hmem

/-- C1 counterexample: template 09:00 to 10:00 with break 09:10 to 09:40
(a valid break strictly inside the working window) and interval 15.  The
generator emits the slot 09:00 to 09:15 (minutes 540 to 555), which
overlaps the break interval [550, 580): it neither ends at or before
break-start (555 > 550) nor starts at or after break-end (540 < 580).
So an emitted slot can overlap the break window. -/
theorem C1_counterexample :
    540 ≤ 550 ∧ 550 < 580 ∧ 580 ≤ 600 ∧
    mkSlot 540 555 ∈ generate_time_slots 540 600 (some 550) (some 580) 15 ∧
    ¬(555 ≤ 550 ∨ 580 ≤ 540) := by decide

/-- C1 (amended): a slot that merely straddles break-start can overlap the
break window; what the generator guarantees is that no emitted slot is
entirely contained in the break window.  Every emitted slot arises from a
cursor x as [x, x + interval) with x < break-start or x + interval >
break-end. -/
theorem C1_no_slot_contained_in_break (start_time end_time b1 b2 interval : Nat)
    (slot : Slot)
    (hmem : slot ∈ generate_time_slots start_time end_time (some b1) (some b2) interval) :
    ∃ x, slot = mkSlot x (x + interval) ∧ (x < b1 ∨ b2 < x + interval) := by
  obtain ⟨x, hx, hn⟩ :=
    genLoop_break_not_contained end_time b1 b2 interval end_time start_time slot hmem
  exact ⟨x, hx, by omega⟩

/-- C1 witness: on the counterexample template the emitted slot 09:00 to
09:15 comes from cursor 540, which starts before break-start 550. -/
theorem C1_witness :
    mkSlot 540 555 ∈ generate_time_slots 540 600 (some 550) (some 580) 15 ∧
    ∃ x, mkSlot 540 555 = mkSlot x (x + 15) ∧ (x < 550 ∨ 580 < x + 15) :=
  ⟨by decide, C1_no_slot_contained_in_break 540 600 550 580 15 (mkSlot 540 555) (by decide)⟩

/-- C2: with no break configured, a valid window start < end and a positive
interval, the generator returns exactly (end - start) / interval slots, the
k-th being [start + k * interval, start + (k + 1) * interval): consecutive,
of exact length interval, in increasing order, with the final remainder
shorter than interval dropped. -/
theorem C2_no_break_tiling (start_time end_time interval : Nat)
    (hi : 1 ≤ interval) (hlt : start_time < end_time) :
    generate_time_slots start_time end_time none none interval =
      (List.range ((end_time - start_time) / interval)).map
        (fun k => mkSlot (start_time + k * interval)
          (start_time + k * interval + interval)) ∧
    (generate_time_slots start_time end_time none none interval).length =
      (end_time - start_time) / interval := by
  have h := genLoop_none end_time interval hi end_time start_time (by omega)
  refine ⟨h, ?_⟩
  show (genLoop end_time none none interval end_time start_time).length =
    (end_time - start_time) / interval
  rw [h]
  simp

/-- C2 witness: window 09:00 to 09:50 with interval 15 gives the three slots
09:00, 09:15, 09:30; the partial slot 09:45 to 10:00 is dropped. -/
theorem C2_witness :
    generate_time_slots 540 590 none none 15 =
      (List.range ((590 - 540) / 15)).map
        (fun k => mkSlot (540 + k * 15) (540 + k * 15 + 15)) ∧
    (generate_time_slots 540 590 none none 15).length = (590 - 540) / 15 :=
  C2_no_break_tiling 540 590 15 (by decide) (by decide)

/-- C5: in every loop iteration (cursor < end time), the candidate slot
[cursor, cursor + interval) is skipped, with the cursor set to break-end and
nothing emitted, exactly when both break bounds are configured and cursor is
at or after break-start and the candidate end is at or before break-end; in
every other case where the candidate end is at or before the end time the
slot is emitted and the cursor advances by one interval. -/
theorem C5_loop_step (end_time b1 b2 interval fuel current : Nat)
    (hc : current < end_time) :
    (b1 ≤ current → current + interval ≤ b2 →
      genLoop end_time (some b1) (some b2) interval (fuel + 1) current =
        genLoop end_time (some b1) (some b2) interval fuel b2) ∧
    (¬(b1 ≤ current ∧ current + interval ≤ b2) → current + interval ≤ end_time →
      genLoop end_time (some b1) (some b2) interval (fuel + 1) current =
        mkSlot current (current + interval) ::
          genLoop end_time (some b1) (some b2) interval fuel (current + interval)) ∧
    (current + interval ≤ end_time →
      genLoop end_time none none interval (fuel + 1) current =
        mkSlot current (current + interval) ::
          genLoop end_time none none interval fuel (current + interval)) := by
  refine ⟨?_, ?_, ?_⟩
  · intro h1 h2
    simp only [genLoop, if_pos hc, Option.getD_some]
    rw [if_pos ⟨rfl, rfl, h1, h2⟩]
  · intro hs he
    have hs₂ : ¬((some b1 : Option Nat).isSome = true ∧
        (some b2 : Option Nat).isSome = true ∧
        b1 ≤ current ∧ current + interval ≤ b2) := by simpa using hs
    simp only [genLoop, if_pos hc, Option.getD_some]
    rw [if_neg hs₂, if_pos he]
  · intro he
    have hnb : ¬((none : Option Nat).isSome = true ∧
        (none : Option Nat).isSome = true ∧
        (none : Option Nat).getD 0 ≤ current ∧
        current + interval ≤ (none : Option Nat).getD 0) := by simp
    simp only [genLoop, if_pos hc]
    rw [if_neg hnb, if_pos he]

/-- C5 witness: at cursor 555 (09:15) with break 550 to 580 and interval 15
the skip branch fires, jumping the cursor to 580 without emitting. -/
theorem C5_witness :
    555 < 600 ∧
    genLoop 600 (some 550) (some 580) 15 (3 + 1) 555 =
      genLoop 600 (some 550) (some 580) 15 3 580 :=
  ⟨by decide, (C5_loop_step 600 550 580 15 3 555 (by decide)).1 (by decide) (by decide)⟩

/-- C9: with a positive interval the loop terminates: any fuel of at least
end - start computes the same finite slot list as generate_time_slots, and
a window with start at or past end produces the empty sequence. -/
theorem C9_generator_terminates (start_time end_time interval : Nat)
    (break_start break_end : Option Nat) (hi : 1 ≤ interval) :
    (∀ fuel, end_time - start_time ≤ fuel →
      genLoop end_time break_start break_end interval fuel start_time =
        generate_time_slots start_time end_time break_start break_end interval) ∧
    (end_time ≤ start_time →
      generate_time_slots start_time end_time break_start break_end interval = []) := by
  constructor
  · intro fuel hf
    exact genLoop_fuel_congr end_time break_start break_end interval hi fuel
      start_time end_time hf (by omega)
  · intro hes
    exact genLoop_stop end_time break_start break_end interval end_time start_time hes

/-- C9 witness: fuel 100 and fuel 600 compute the same list for the 09:00 to
10:00 window, and an empty window 10:00 to 09:00 yields no slots. -/
theorem C9_witness :
    genLoop 600 (some 550) (some 580) 15 100 540 =
      generate_time_slots 540 600 (some 550) (some 580) 15 ∧
    generate_time_slots 600 540 (some 550) (some 580) 15 = [] :=
  ⟨(C9_generator_terminates 540 600 15 (some 550) (some 580) (by decide)).1 100 (by decide),
   (C9_generator_terminates 600 540 15 (some 550) (some 580) (by decide)).2 (by decide)⟩

/-- Membership in the booked-slot list of the availability query: a string s
is reported booked exactly when some appointment row of the same doctor,
date and tenant with status other than Cancelled carries s as its
time_slot. -/
lemma mem_booked_slots (db : List Appointment) (did : Nat) (date : String)
    (h : Nat) (s : String) :
    s ∈ booked_slots db did date h ↔
      ∃ a, a ∈ db ∧ a.doctor_id = did ∧ a.date = date ∧
        a.status ≠ "Cancelled" ∧ a.hospital_id = h ∧ a.time_slot = s := by
  simp only [booked_slots, List.mem_map, List.mem_filter, Bool.and_eq_true,
    beq_iff_eq, bne_iff_ne]
  constructor
  · rintro ⟨a, ⟨ha, ⟨⟨hd, hdt⟩, hst⟩, hh⟩, hts⟩
    exact ⟨a, ha, hd, hdt, hst, hh, hts⟩
  · rintro ⟨a, ha, hd, hdt, hst, hh, hts⟩
    exact ⟨a, ⟨ha, ⟨⟨hd, hdt⟩, hst⟩, hh⟩, hts⟩

/-- C3: the schedule_appointment handler performs a plain INSERT with no
conflict check, so booking the same (doctor, date, slot, tenant) twice from
an empty ledger silently yields two non-cancelled appointments in the same
slot; no distinct conflict failure exists in the code.  Here doctor 2,
date 2026-01-05, slot 09:00, tenant 7 is booked for patients 10 and 11. -/
theorem C3_double_booking_not_rejected :
    (schedule_appointment
        (schedule_appointment [] 10 2 "2026-01-05" "09:00" "" 7 1)
        11 2 "2026-01-05" "09:00" "" 7 2).countP
      (fun a => a.doctor_id == 2 && a.date == "2026-01-05" &&
        a.time_slot == "09:00" && a.status != "Cancelled" &&
        a.hospital_id == 7) = 2 ∧
    booked_slots
      (schedule_appointment
        (schedule_appointment [] 10 2 "2026-01-05" "09:00" "" 7 1)
        11 2 "2026-01-05" "09:00" "" 7 2) 2 "2026-01-05" 7 =
      ["09:00", "09:00"] := by decide

/-- C4 counterexample: the code permits two non-cancelled appointments (ids
1 and 2) in the same slot; after the status of appointment 1 is set to
Cancelled by its doctor, the availability query still reports 09:00 booked
(because of appointment 2), so cancelling an appointment does not always
remove its slot from the booked set. -/
theorem C4_counterexample :
    (update_appointment_status
        (schedule_appointment
          (schedule_appointment [] 10 2 "2026-01-05" "09:00" "" 7 1)
          11 2 "2026-01-05" "09:00" "" 7 2)
        1 "Cancelled" 2 7).countP
      (fun a => a.id == 1 && a.status == "Cancelled") = 1 ∧
    "09:00" ∈ booked_slots
      (update_appointment_status
        (schedule_appointment
          (schedule_appointment [] 10 2 "2026-01-05" "09:00" "" 7 1)
          11 2 "2026-01-05" "09:00" "" 7 2)
        1 "Cancelled" 2 7) 2 "2026-01-05" 7 := by decide

/-- C4 (amended): the booked set of an availability query is exactly the set
of time-slot strings of appointments of that doctor, date and tenant whose
status is not Cancelled; and after an appointment's status is set to
Cancelled its slot disappears from the booked set provided no other
non-cancelled appointment of the same doctor, date, slot and tenant
exists. -/
theorem C4_booked_set_exact :
    (∀ (db : List Appointment) (did : Nat) (date : String) (h : Nat) (s : String),
      s ∈ booked_slots db did date h ↔
        ∃ a, a ∈ db ∧ a.doctor_id = did ∧ a.date = date ∧
          a.status ≠ "Cancelled" ∧ a.hospital_id = h ∧ a.time_slot = s) ∧
    (∀ (db : List Appointment) (aid did h : Nat) (date s : String),
      (∀ b, b ∈ db → b.doctor_id = did → b.date = date → b.time_slot = s →
        b.hospital_id = h → b.status ≠ "Cancelled" → b.id = aid) →
      s ∉ booked_slots (update_appointment_status db aid "Cancelled" did h) did date h) := by
  constructor
  · exact mem_booked_slots
  · intro db aid did h date s huniq hmem
    rw [mem_booked_slots] at hmem
    obtain ⟨a, ha, hdoc, hdate, hstat, hhosp, hslot⟩ := hmem
    simp only [update_appointment_status, List.mem_map] at ha
    obtain ⟨b, hb, hfb⟩ := ha
    by_cases hcond : (b.id == aid && b.doctor_id == did && b.hospital_id == h) = true
    · rw [if_pos hcond] at hfb
      rw [← hfb] at hstat
      exact hstat rfl
    · rw [if_neg hcond] at hfb
      subst hfb
      have hid : b.id = aid := huniq b hb hdoc hdate hslot hhosp hstat
      refine hcond ?_
      simp only [Bool.and_eq_true, beq_iff_eq]
      exact ⟨⟨hid, hdoc⟩, hhosp⟩

/-- C4 witness: with a single appointment (id 1) in the slot, cancelling it
does free the slot. -/
theorem C4_witness :
    "09:00" ∉ booked_slots
      (update_appointment_status
        (schedule_appointment [] 10 2 "2026-01-05" "09:00" "" 7 1)
        1 "Cancelled" 2 7) 2 "2026-01-05" 7 :=
  C4_booked_set_exact.2 (schedule_appointment [] 10 2 "2026-01-05" "09:00" "" 7 1)
    1 2 7 "2026-01-05" "09:00"
    (by
      intro b hb h1 h2 h3 h4 h5
      simp only [schedule_appointment, List.nil_append, List.mem_singleton] at hb
      rw [hb])

/-- C6: when the template lookup for the requested date's weekday and the
caller's tenant finds no row, the resolver returns the distinct
notAvailable value: a normal return, not the invalid-date client error, and
never a configured-but-empty slot list. -/
theorem C6_no_template_not_available (templates : List DoctorSlot)
    (db : List Appointment) (did : Nat) (date : String) (h y m d : Nat)
    (hp : parseDate date = some (y, m, d))
    (hf : templates.find? (fun t => t.doctor_id == did &&
      t.day == dayOfWeekName y m d && t.hospital_id == h) = none) :
    get_doctor_slots templates db did date h = SlotsResponse.notAvailable ∧
    get_doctor_slots templates db did date h ≠ SlotsResponse.invalidDate ∧
    (∀ (slots : List Slot) (booked : List String),
      get_doctor_slots templates db did date h ≠
        SlotsResponse.available slots booked) := by
  have hmain : get_doctor_slots templates db did date h = SlotsResponse.notAvailable := by
    simp only [get_doctor_slots, hp, hf]
  refine ⟨hmain, ?_, ?_⟩
  · rw [hmain]
    intro hcontra
    exact SlotsResponse.noConfusion hcontra
  · intro slots booked
    rw [hmain]
    intro hcontra
    exact SlotsResponse.noConfusion hcontra

/-- C6 witness: a doctor with no templates at all queried on 2026-01-05. -/
theorem C6_witness :
    parseDate "2026-01-05" = some (2026, 1, 5) ∧
    get_doctor_slots [] [] 1 "2026-01-05" 7 = SlotsResponse.notAvailable :=
  ⟨by decide,
   (C6_no_template_not_available [] [] 1 "2026-01-05" 7 2026 1 5 (by decide) rfl).1⟩

/-- C7: when the date input fails to parse, the resolver answers with the
invalidDate client error, distinct from the no-schedule outcome, and the
answer is independent of the template store and of the booking ledger: no
slot computation and no ledger query influence it. -/
theorem C7_invalid_date_client_error (templates : List DoctorSlot)
    (db : List Appointment) (did : Nat) (date : String) (h : Nat)
    (hp : parseDate date = none) :
    get_doctor_slots templates db did date h = SlotsResponse.invalidDate ∧
    get_doctor_slots templates db did date h ≠ SlotsResponse.notAvailable ∧
    (∀ (templates₂ : List DoctorSlot) (db₂ : List Appointment),
      get_doctor_slots templates₂ db₂ did date h =
        get_doctor_slots templates db did date h) := by
  have hmain : ∀ (ts : List DoctorSlot) (db₂ : List Appointment),
      get_doctor_slots ts db₂ did date h = SlotsResponse.invalidDate := by
    intro ts db₂
    simp only [get_doctor_slots, hp]
  refine ⟨hmain templates db, ?_, ?_⟩
  · rw [hmain templates db]
    intro hcontra
    exact SlotsResponse.noConfusion hcontra
  · intro templates₂ db₂
    rw [hmain templates db, hmain templates₂ db₂]

/-- C7 witness: the string not-a-date is rejected whatever the stores
contain. -/
theorem C7_witness :
    parseDate "not-a-date" = none ∧
    get_doctor_slots [] [] 1 "not-a-date" 7 = SlotsResponse.invalidDate :=
  ⟨by decide, (C7_invalid_date_client_error [] [] 1 "not-a-date" 7 (by decide)).1⟩

/-- Filtering can only lower a countP count. -/
lemma countP_filter_le {α : Type} (p q : α → Bool) :
    ∀ l : List α, (l.filter q).countP p ≤ l.countP p := by
  intro l
  induction l with
  | nil => exact Nat.le_refl 0
  | cons a l ih =>
    by_cases hq : q a = true
    · simp only [List.filter_cons, hq, if_pos, List.countP_cons]
      omega
    · simp only [List.filter_cons, hq]
      rw [if_neg (by simp [hq])]
      rw [List.countP_cons]
      omega

/-- find? skips a prefix none of whose elements satisfies the predicate. -/
lemma find?_append_of_prefix_none {α : Type} (p : α → Bool) :
    ∀ (l₁ l₂ : List α), (∀ x, x ∈ l₁ → p x = false) →
      (l₁ ++ l₂).find? p = l₂.find? p := by
  intro l₁ l₂
  induction l₁ with
  | nil => intro _; rfl
  | cons a l ih =>
    intro hnone
    have ha : p a = false := hnone a (List.mem_cons_self a l)
    rw [List.cons_append, List.find?_cons, ha]
    exact ih (fun x hx => hnone x (List.mem_cons_of_mem a hx))

/-- C8: if each (doctor, weekday, tenant) key has at most one template row,
then after the delete-then-insert of set_doctor_slots this still holds, and
looking up the submitted (doctor, weekday, tenant) returns exactly the
newly submitted row with its start, end and break values. -/
theorem C8_template_replacement (templates : List DoctorSlot) (did : Nat)
    (day : String) (st et : Nat) (bs be : Option Nat) (h nid : Nat)
    (hinv : ∀ (d₂ h₂ : Nat) (dy₂ : String),
      templates.countP (fun t => t.doctor_id == d₂ && t.day == dy₂ &&
        t.hospital_id == h₂) ≤ 1) :
    (∀ (d₂ h₂ : Nat) (dy₂ : String),
      (set_doctor_slots templates did day st et bs be h nid).countP
        (fun t => t.doctor_id == d₂ && t.day == dy₂ && t.hospital_id == h₂) ≤ 1) ∧
    (set_doctor_slots templates did day st et bs be h nid).find?
        (fun t => t.doctor_id == did && t.day == day && t.hospital_id == h) =
      some { id := nid
             doctor_id := did
             day := day
             start_time := st
             end_time := et
             break_start := bs
             break_end := be
             hospital_id := h } := by
  constructor
  · intro d₂ h₂ dy₂
    rw [set_doctor_slots, List.countP_append]
    by_cases hk : did = d₂ ∧ day = dy₂ ∧ h = h₂
    · obtain ⟨hk1, hk2, hk3⟩ := hk
      subst hk1
      subst hk2
      subst hk3
      have hpre : (templates.filter (fun t => !(t.doctor_id == did &&
          t.day == day && t.hospital_id == h))).countP
            (fun t => t.doctor_id == did && t.day == day &&
              t.hospital_id == h) = 0 := by
        rw [List.countP_eq_zero]
        intro x hx
        have hx2 := (List.mem_filter.mp hx).2
        simp only [Bool.not_eq_true'] at hx2
        simp [hx2]
      rw [hpre]
      have hone : List.countP (fun t => t.doctor_id == did && t.day == day &&
          t.hospital_id == h)
          ([{ id := nid
              doctor_id := did
              day := day
              start_time := st
              end_time := et
              break_start := bs
              break_end := be
              hospital_id := h }] : List DoctorSlot) ≤ 1 := by
        rw [List.countP_cons]
        simp [List.countP_nil]
      omega
    · have hnew : List.countP (fun t => t.doctor_id == d₂ && t.day == dy₂ &&
          t.hospital_id == h₂)
          ([{ id := nid
              doctor_id := did
              day := day
              start_time := st
              end_time := et
              break_start := bs
              break_end := be
              hospital_id := h }] : List DoctorSlot) = 0 := by
        rw [List.countP_eq_zero]
        intro x hx
        rw [List.mem_singleton] at hx
        subst hx
        simp only [Bool.and_eq_true, beq_iff_eq, not_and]
        intro h1 h2
        exact hk ⟨h1.1, h1.2, h2⟩
      have hle := countP_filter_le
        (fun t => t.doctor_id == d₂ && t.day == dy₂ && t.hospital_id == h₂)
        (fun t => !(t.doctor_id == did && t.day == day && t.hospital_id == h))
        templates
      have := hinv d₂ h₂ dy₂
      omega
  · rw [set_doctor_slots]
    rw [find?_append_of_prefix_none _ _ _ (by
      intro x hx
      have hx2 := (List.mem_filter.mp hx).2
      simpa only [Bool.not_eq_true'] using hx2)]
    simp [List.find?_cons]

/-- C8 witness: replacing into an empty template store yields exactly the
new Monday template. -/
theorem C8_witness :
    (set_doctor_slots [] 1 "Monday" 540 720 (some 630) (some 660) 7 5).find?
        (fun t => t.doctor_id == 1 && t.day == "Monday" && t.hospital_id == 7) =
      some { id := 5
             doctor_id := 1
             day := "Monday"
             start_time := 540
             end_time := 720
             break_start := some 630
             break_end := some 660
             hospital_id := 7 } :=
  (C8_template_replacement [] 1 "Monday" 540 720 (some 630) (some 660) 7 5
    (by intro d₂ h₂ dy₂; simp [List.countP_nil])).2

/-- Filtering by q first does not change a filter by p when p implies q. -/
lemma filter_filter_of_imp {α : Type} (p q : α → Bool)
    (hpq : ∀ a, p a = true → q a = true) :
    ∀ l : List α, (l.filter q).filter p = l.filter p := by
  intro l
  induction l with
  | nil => rfl
  | cons a l ih =>
    by_cases hq : q a = true
    · by_cases hp : p a = true
      · simp [List.filter_cons, hq, hp, ih]
      · simp [List.filter_cons, hq, hp, ih]
    · have hp : p a = false := by
        cases hpa : p a
        · rfl
        · exact absurd (hpq a hpa) hq
      simp [List.filter_cons, hq, hp, ih]

/-- Mapping a function that preserves the filter predicate and fixes every
element satisfying it does not change the filtered list. -/
lemma filter_map_of_preserve {α : Type} (f : α → α) (np : α → Bool)
    (h1 : ∀ x, np (f x) = np x) (h2 : ∀ x, np x = true → f x = x) :
    ∀ l : List α, (l.map f).filter np = l.filter np := by
  intro l
  induction l with
  | nil => rfl
  | cons a l ih =>
    rw [List.map_cons, List.filter_cons, List.filter_cons, h1 a]
    cases hnp : np a
    · simp [ih]
    · rw [h2 a hnp, ih]

/-- The status update of one tenant's doctor leaves every row of any other
tenant unchanged. -/
lemma update_appointment_status_other_tenant (db : List Appointment)
    (aid sdid h : Nat) (st : String) :
    (update_appointment_status db aid st sdid h).filter
        (fun a => !(a.hospital_id == h)) =
      db.filter (fun a => !(a.hospital_id == h)) := by
  rw [update_appointment_status]
  refine filter_map_of_preserve _ _ ?_ ?_ db
  · intro x
    by_cases hcond : (x.id == aid && x.doctor_id == sdid &&
        x.hospital_id == h) = true
    · rw [if_pos hcond]
    · rw [if_neg hcond]
  · intro x hx
    simp only [Bool.not_eq_true'] at hx
    rw [if_neg (by simp [hx] :
      ¬(x.id == aid && x.doctor_id == sdid && x.hospital_id == h) = true)]

/-- C10: every booking-ledger operation is tenant scoped.  Creation appends
one row carrying the caller's tenant; creation, deletion and status update
leave the rows of every other tenant untouched; and the booked set of an
availability query is computed from rows of the caller's tenant only. -/
theorem C10_tenant_isolation (db : List Appointment)
    (pid did h nid aid sdid : Nat) (date ts notes date₂ st : String) :
    ((schedule_appointment db pid did date ts notes h nid).map
        (fun a => a.hospital_id) = db.map (fun a => a.hospital_id) ++ [h]) ∧
    ((schedule_appointment db pid did date ts notes h nid).filter
        (fun a => !(a.hospital_id == h)) =
      db.filter (fun a => !(a.hospital_id == h))) ∧
    (booked_slots db did date₂ h =
      booked_slots (db.filter (fun a => a.hospital_id == h)) did date₂ h) ∧
    ((delete_appointment db aid h).filter (fun a => !(a.hospital_id == h)) =
      db.filter (fun a => !(a.hospital_id == h))) ∧
    ((update_appointment_status db aid st sdid h).filter
        (fun a => !(a.hospital_id == h)) =
      db.filter (fun a => !(a.hospital_id == h))) := by
  refine ⟨?_, ?_, ?_, ?_, ?_⟩
  · simp [schedule_appointment]
  · simp [schedule_appointment, List.filter_append]
  · rw [booked_slots, booked_slots,
      filter_filter_of_imp _ _ (fun a ha => by
        simp only [Bool.and_eq_true] at ha
        exact ha.2) db]
  · rw [delete_appointment,
      filter_filter_of_imp _ _ (fun a ha => by
        simp only [Bool.not_eq_true'] at ha ⊢
        simp [ha]) db]
  · exact update_appointment_status_other_tenant db aid sdid h st
